import Mathlib

/-!
Shallow embedding of `src/paris.py`: a fixed pool of worker threads that
drain a shared task queue and push each item to a pluggable storage
backend.  Pure functions of the source become Lean functions; stateful
code becomes explicit state passing; calls that may raise become
`Except`/`Option` results; side-effect calls (`open()` on a backend,
`close()` on a client) are recorded as explicit event traces.
-/

/-- A Python value as it reaches `PropertiesConfig.put`: the source coerces
both key and value with `str(...)` before storing. -/
inductive PyVal where
  | str (s : String)
  | int (n : Int)
deriving DecidableEq, Repr

/-- Models Python `str(v)` for the values that occur in this program. -/
def pyStr : PyVal → String
  | .str s => s
  | .int n => toString n

/-- `PropertiesConfig._conf`: a string-keyed dictionary, modelled as a
lookup function (Python `dict.get(key, None)` semantics). -/
def PropertiesConfig : Type := String → Option String

/-- `PropertiesConfig.get`: `self._conf.get(key, None)` — returns the
stored value or `None`, never raises. -/
def PropertiesConfig.get (c : PropertiesConfig) (k : String) : Option String := c k

/-- `PropertiesConfig.put`: `self._conf[str(key)] = str(value)` — both key
and value coerced to strings on storage, last write wins. -/
def PropertiesConfig.put (c : PropertiesConfig) (k v : PyVal) : PropertiesConfig :=
  fun q => if q = pyStr k then some (pyStr v) else c q

/-- `PropertiesConfig.__init__`: the empty dictionary. -/
def emptyConfig : PropertiesConfig := fun _ => none

/-- `PropertiesConfig.from_properties`: puts each `[key, value]` pair in
order (the source applies `str` before `put`, `put` applies it again). -/
def PropertiesConfig.from_properties (props : List (PyVal × PyVal)) : PropertiesConfig :=
  props.foldl (fun c p => c.put (.str (pyStr p.1)) (.str (pyStr p.2))) emptyConfig

/-- Value of a nonempty list of decimal digit characters; `none` when a
non-digit appears. -/
def digitsVal (cs : List Char) : Option Nat :=
  cs.foldl
    (fun acc c =>
      match acc with
      | none => none
      | some n => if c.isDigit then some (n * 10 + (c.toNat - 48)) else none)
    (some 0)

/-- Models Python `int(s)` on the string forms this program feeds it:
an optional sign followed by decimal digits; `none` models `ValueError`. -/
def pyIntParse (s : String) : Option Int :=
  match s.data with
  | [] => none
  | c :: cs =>
    if c = '-' then
      match cs with
      | [] => none
      | _ => (digitsVal cs).map (fun n => -(n : Int))
    else if c = '+' then
      match cs with
      | [] => none
      | _ => (digitsVal cs).map (fun n => (n : Int))
    else (digitsVal (c :: cs)).map (fun n => (n : Int))

/-- Models Python `float(s)` on decimal literals `[sign] digits [. digits]`,
as rationals; `none` models `ValueError`. -/
def pyFloatParse (s : String) : Option ℚ :=
  match s.data.splitOn '.' with
  | [ip] => (pyIntParse (String.mk ip)).map (fun n => (n : ℚ))
  | [ip, fp] =>
    let signed : Bool × List Char :=
      match ip with
      | '-' :: r => (true, r)
      | '+' :: r => (false, r)
      | r => (false, r)
    if signed.2.isEmpty && fp.isEmpty then none
    else
      match (if signed.2.isEmpty then some 0 else digitsVal signed.2),
            (if fp.isEmpty then some 0 else digitsVal fp) with
      | some i, some f =>
        let mag : ℚ := (i : ℚ) + (f : ℚ) / ((10 : ℚ) ^ fp.length)
        some (if signed.1 then -mag else mag)
      | _, _ => none
  | _ => none

/-- Models `int(v or d)` where `v` is a config lookup result: `None` and
the empty string are falsy, so the default `d` (already an int) is used;
otherwise the string is parsed. -/
def pyIntOr (v : Option String) (d : Int) : Option Int :=
  match v with
  | none => some d
  | some s => if s.isEmpty then some d else pyIntParse s

/-- Models `float(v or d)` analogously, with the default as a rational. -/
def pyFloatOr (v : Option String) (d : ℚ) : Option ℚ :=
  match v with
  | none => some d
  | some s => if s.isEmpty then some d else pyFloatParse s

/-- `Manager.__init__`: `int(self._config.get("worker.threads") or 1)`. -/
def numberOfThreads (c : PropertiesConfig) : Option Int :=
  pyIntOr (c.get "worker.threads") 1

/-- `Manager.__init__`: `int(self._config.get("worker.join.timeout") or 60)`. -/
def joinTimeoutConf (c : PropertiesConfig) : Option Int :=
  pyIntOr (c.get "worker.join.timeout") 60

/-- `Worker.__init__`: `float(self._config.get("worker.timeout") or 0.2)`. -/
def workerTimeout (c : PropertiesConfig) : Option ℚ :=
  pyFloatOr (c.get "worker.timeout") (1 / 5)

/-- The `File` class (the spec's Task): config reference plus path,
category (`filetype`) and name, all fixed at construction. -/
structure File where
  config : PropertiesConfig
  filepath : String
  filetype : String
  filename : String

/-- `File.bucket`: `config.get(f"files.{filetype}.bucket")`. -/
def File.bucket (f : File) : Option String :=
  f.config.get ("files." ++ f.filetype ++ ".bucket")

/-- `File.key`: looks up `files.<filetype>.key`; a truthy prefix (present
and nonempty) is prepended to the filename, otherwise the bare filename is
returned (`None` and `""` are both falsy in `if prefix:`). -/
def File.key (f : File) : String :=
  match f.config.get ("files." ++ f.filetype ++ ".key") with
  | some pfx => if pfx.isEmpty then f.filename else pfx ++ f.filename
  | none => f.filename

/-- A registered storage engine as the factory sees it: its stable
`identifier` plus an instance id distinguishing object identities, so that
"the same backend instance" and "how many `open()` calls hit which
instance" are expressible. -/
structure Backend where
  identifier : String
  instanceId : Nat
deriving DecidableEq, Repr

/-- `StorageFactory._options`: a dictionary from identifier to backend. -/
def Registry : Type := String → Option Backend

/-- The empty `_options` dictionary. -/
def emptyRegistry : Registry := fun _ => none

/-- `StorageFactory.register`: `self._options[storage_engine.identifier] =
storage_engine` — dictionary assignment, last write wins. -/
def StorageFactory.register (reg : Registry) (b : Backend) : Registry :=
  fun q => if q = b.identifier then some b else reg q

/-- The exceptions this embedding distinguishes: the
`raise NotImplementedError` in `StorageFactory.build` (the spec's
`UnsupportedBackendError`) and the `ValueError` of a failed `int(...)` or
`float(...)` conversion. -/
inductive PyError where
  | unsupportedBackend
  | valueError
deriving DecidableEq, Repr

/-- `StorageFactory.build`: reads `files.provider`, looks the name up in
`_options` (a missing provider key gives `None`, which is absent from the
dictionary), calls `open()` on a hit and returns it, else raises.  The
second component records the `instanceId` of every backend `open()`ed
during the call. -/
def StorageFactory.build (c : PropertiesConfig) (reg : Registry) :
    Except PyError Backend × List Nat :=
  match c.get "files.provider" with
  | none => (.error .unsupportedBackend, [])
  | some p =>
    match reg p with
    | some b => (.ok b, [b.instanceId])
    | none => (.error .unsupportedBackend, [])

/-- A `Worker` after `__init__`: references to the shared queue and
cancellation token (modelled as ids, so sharing is expressible), the
uploader returned by `factory.build()`, and the parsed poll interval. -/
structure WorkerRec where
  queueRef : Nat
  tokenRef : Nat
  uploader : Backend
  timeout : ℚ
deriving DecidableEq

/-- `Worker.__init__`: stores the shared references, calls
`self._factory.build()` (whose failure propagates out of the
constructor), then parses `worker.timeout` (a `ValueError` also
propagates).  Returns the constructed worker and the open-call trace of
its `build()`. -/
def Worker.init (c : PropertiesConfig) (q t : Nat) (reg : Registry) :
    Except PyError (WorkerRec × List Nat) :=
  match StorageFactory.build c reg with
  | (.ok b, evs) =>
    match workerTimeout c with
    | some tm => .ok (⟨q, t, b, tm⟩, evs)
    | none => .error .valueError
  | (.error e, _) => .error e

/-- The loop body of `Manager.prepare`: constructs `n` workers in order,
each via `Worker.init` against the same config, queue, token and factory,
concatenating their open-call traces. -/
def prepareN (c : PropertiesConfig) (q t : Nat) (reg : Registry) :
    Nat → Except PyError (List WorkerRec × List Nat)
  | 0 => .ok ([], [])
  | n + 1 =>
    match Worker.init c q t reg with
    | .error e => .error e
    | .ok (w, evs) =>
      match prepareN c q t reg n with
      | .error e => .error e
      | .ok (ws, evss) => .ok (w :: ws, evs ++ evss)

/-- `Manager.__init__` followed by `Manager.prepare`: the constructor
parses `worker.threads` and `worker.join.timeout` (raising on bad
values); `prepare` clears the worker list and builds
`range(0, number_of_threads)` workers (an empty range when the parsed
count is nonpositive).  Result: the fresh worker list and the
concatenated open-call trace. -/
def Manager.prepare (c : PropertiesConfig) (q t : Nat) (reg : Registry) :
    Except PyError (List WorkerRec × List Nat) :=
  match numberOfThreads c, joinTimeoutConf c with
  | some n, some _ => prepareN c q t reg n.toNat
  | _, _ => .error .valueError

/-- The boto3 S3 client as `SimpleStorage.open` constructs it: determined
by the three configuration-sourced parameters. -/
structure S3Client where
  accessKey : Option String
  secretKey : Option String
  endpoint : Option String
deriving DecidableEq, Repr

/-- `boto3.client("s3", ...)` with the credentials and endpoint read from
configuration inside `SimpleStorage.open`. -/
def mkClient (c : PropertiesConfig) : S3Client :=
  ⟨c.get "aws_access_key_id", c.get "aws_secret_access_key", c.get "endpoint_url"⟩

/-- The mutable state of a `SimpleStorage` instance: `self._client`, which
is `None` until `open()` and again after `close()`. -/
structure SimpleStorage where
  client : Option S3Client
deriving DecidableEq, Repr

/-- Observable side effects of the `SimpleStorage` lifecycle methods. -/
inductive StorageEvent where
  | closedClient (cl : S3Client)
  | openedClient (cl : S3Client)
deriving DecidableEq, Repr

/-- `SimpleStorage.close`: `if self._client: self._client.close();
self._client = None` — releases an existing client, does nothing when the
handle is already closed. -/
def SimpleStorage.close (s : SimpleStorage) : SimpleStorage × List StorageEvent :=
  match s.client with
  | some cl => (⟨none⟩, [.closedClient cl])
  | none => (s, [])

/-- `SimpleStorage.open`: first `self.close()`, then assigns a fresh
client built from configuration. -/
def SimpleStorage.openConn (c : PropertiesConfig) (s : SimpleStorage) :
    SimpleStorage × List StorageEvent :=
  match s.close with
  | (_, evs) => (⟨some (mkClient c)⟩, evs ++ [.openedClient (mkClient c)])

/-- What one iteration of `Worker.run` observes from its environment: the
value `self._cancellation_token.is_set()` returns at the loop head, and
what `self._worker_queue.get(block=False)` yields (`none` models the
`queue.Empty` branch that sets `item = None`).  Tasks are abstract item
ids. -/
structure WorkerEnv where
  tokenSet : Bool
  popResult : Option Nat
deriving DecidableEq, Repr

/-- How a (finite observation of a) run loop ended. -/
inductive RunOutcome where
  | stopped
  | running
  | crashed (t : Nat)
deriving DecidableEq, Repr

/-- Instrumented result of running the loop over a finite environment
trace: the outcome, how many non-blocking `get` calls were made, how many
poll-interval sleeps were taken, and the items passed to
`upload_file` in order. -/
structure RunStats where
  outcome : RunOutcome
  popAttempts : Nat
  sleeps : Nat
  transfers : List Nat
deriving DecidableEq, Repr

/-- `Worker.run` over a finite trace of environment observations, with the
uploader modelled as `up : Nat → Bool` (`false` = `upload_file` raises).
Each iteration: if the token is set, exit the loop (`stopped`); else pop
non-blockingly; on an item, call `upload_file` — an exception propagates
out of `run`, ending the loop with no sleep (`crashed`); otherwise sleep
the poll interval and continue.  An exhausted trace leaves the loop still
`running`. -/
def Worker.run (up : Nat → Bool) : List WorkerEnv → RunStats
  | [] => ⟨.running, 0, 0, []⟩
  | e :: es =>
    if e.tokenSet then ⟨.stopped, 0, 0, []⟩
    else
      match e.popResult with
      | none =>
        let r := Worker.run up es
        ⟨r.outcome, r.popAttempts + 1, r.sleeps + 1, r.transfers⟩
      | some t =>
        if up t then
          let r := Worker.run up es
          ⟨r.outcome, r.popAttempts + 1, r.sleeps + 1, t :: r.transfers⟩
        else ⟨.crashed t, 1, 0, [t]⟩

/-- The pool's workers run as independent threads: each worker's loop is a
function of its own uploader result and its own environment trace only. -/
def poolRun (up : Nat → Bool) (envs : List (List WorkerEnv)) : List RunStats :=
  envs.map (Worker.run up)

/-- A worker thread at `stop()` time, abstracted to what `join` can
observe: whether the thread terminates within a given timeout bound. -/
structure ThreadSt where
  doneWithin : Int → Bool

/-- `threading.Thread.join(timeout=...)`: waits up to the bound, returns
(without raising) whether or not the thread finished. -/
def joinThread (th : ThreadSt) (tm : Int) : Bool := th.doneWithin tm

/-- `Manager.stop`: `for worker_thread in self._workers:
worker_thread.join(timeout=self._join_timeout)` — joins every thread in
order, each wait bounded by the configured join timeout; it never touches
the cancellation token (passed through unchanged) and is total (no
exception path exists in the body).  Returns the token as it was and the
per-thread join results. -/
def Manager.stop (token : Bool) (ws : List ThreadSt) (tm : Int) :
    Bool × List Bool :=
  (token, ws.map (fun w => joinThread w tm))

/-- Concrete configuration with a key-prefix for category `upload`, as in
the spec's scenario and the source's `__main__` block. -/
def cUpload : PropertiesConfig :=
  PropertiesConfig.from_properties [(.str "files.upload.key", .str "upload/")]

/-- A concrete backend instance registered under identifier `b`. -/
def bB : Backend := ⟨"b", 7⟩

/-- A concrete backend instance registered under identifier `a`. -/
def aA : Backend := ⟨"a", 3⟩

/-- Concrete configuration selecting provider `b` with two worker threads. -/
def cTwoThreads : PropertiesConfig :=
  PropertiesConfig.from_properties
    [(.str "files.provider", .str "b"), (.str "worker.threads", .str "2")]

/-- Registry holding exactly the backend `bB`. -/
def regB : Registry := StorageFactory.register emptyRegistry bB

/-- The worker record that `Worker.init cTwoThreads 0 1 regB` produces:
queue id 0, token id 1, the shared backend `bB`, default poll interval. -/
def wB : WorkerRec := ⟨0, 1, bB, 1 / 5⟩

/-- Concrete configuration naming a provider for which nothing is
registered. -/
def cUnknownProvider : PropertiesConfig :=
  PropertiesConfig.from_properties [(.str "files.provider", .str "zzz")]

/-- A concrete uploader for which `upload_file` raises exactly on item 1. -/
def upFailsOnOne : Nat → Bool := fun t => t != 1

/-- A two-iteration environment trace: the token is never set, the queue
yields item 1 and then item 2. -/
def envsTwoItems : List WorkerEnv := [⟨false, some 1⟩, ⟨false, some 2⟩]

/-- A worker thread that does not terminate within any join bound. -/
def thStuck : ThreadSt := ⟨fun _ => false⟩

/-- Helper for C10: folding `put` over pairs whose coerced keys avoid `k2`
leaves the lookup of `k2` unchanged. -/
theorem foldl_put_get_not_mem
    (props : List (PyVal × PyVal)) (acc : PropertiesConfig) (k2 : String)
    (h : k2 ∉ props.map (fun p => pyStr p.1)) :
    (props.foldl (fun c p => c.put (.str (pyStr p.1)) (.str (pyStr p.2))) acc).get k2
      = acc.get k2 := by
  induction props generalizing acc with
  | nil => rfl
  | cons p ps ih =>
    simp only [List.map_cons, List.mem_cons, not_or] at h
    rw [List.foldl_cons, ih _ h.2]
    show (if k2 = pyStr (.str (pyStr p.1)) then _ else acc.get k2) = acc.get k2
    rw [if_neg]
    exact h.1

/-- C10: after `put(key, value)` a `get` of `str(key)` returns
`str(value)` (both coerced to strings on storage); a `get` of a key never
put returns `None` rather than raising; and with the three worker keys
absent, the `or`-based defaults take effect: `worker.threads` 1,
`worker.timeout` 0.2 and `worker.join.timeout` 60. -/
theorem put_get_roundtrip_absent_none_defaults
    (c : PropertiesConfig) (k v : PyVal)
    (props : List (PyVal × PyVal)) (k2 : String) (c2 : PropertiesConfig)
    (hk2 : k2 ∉ props.map (fun p => pyStr p.1))
    (ht : c2.get "worker.threads" = none)
    (htm : c2.get "worker.timeout" = none)
    (hj : c2.get "worker.join.timeout" = none) :
    (c.put k v).get (pyStr k) = some (pyStr v)
    ∧ (PropertiesConfig.from_properties props).get k2 = none
    ∧ numberOfThreads c2 = some 1
    ∧ workerTimeout c2 = some (1 / 5)
    ∧ joinTimeoutConf c2 = some 60 := by
  refine ⟨?_, ?_, ?_, ?_, ?_⟩
  · show (if pyStr k = pyStr k then some (pyStr v) else c.get (pyStr k)) = some (pyStr v)
    rw [if_pos rfl]
  · rw [PropertiesConfig.from_properties, foldl_put_get_not_mem props emptyConfig k2 hk2]
    rfl
  · rw [numberOfThreads, ht]; rfl
  · rw [workerTimeout, htm]; rfl
  · rw [joinTimeoutConf, hj]; rfl

/-- Witness for C10 at concrete inputs: the int key `5` is stored under
`"5"`, an unrelated key is absent, and the empty configuration yields all
three defaults. -/
theorem put_get_witness :
    (emptyConfig.put (.int 5) (.str "x")).get "5" = some "x"
    ∧ (PropertiesConfig.from_properties [(.str "a", .str "1")]).get "b" = none
    ∧ numberOfThreads emptyConfig = some 1
    ∧ workerTimeout emptyConfig = some (1 / 5)
    ∧ joinTimeoutConf emptyConfig = some 60 :=
  put_get_roundtrip_absent_none_defaults emptyConfig (.int 5) (.str "x")
    [(.str "a", .str "1")] "b" emptyConfig (by decide) rfl rfl rfl

/-- C3: `computedKey` is the configured key-prefix for the category
concatenated with the bare filename whenever `files.<category>.key` is
configured (also when the configured prefix is the empty string, since
then the concatenation is the bare filename, which is what the falsy
branch returns), and the bare filename when no prefix is configured;
including the spec's two concrete scenarios. -/
theorem computedKey_prefix_concat
    (cfg cfg2 : PropertiesConfig) (fp fp2 ft fn : String) (pfx : String)
    (h1 : cfg.get ("files." ++ ft ++ ".key") = some pfx)
    (h2 : cfg2.get ("files." ++ ft ++ ".key") = none) :
    (File.mk cfg fp ft fn).key = pfx ++ fn
    ∧ (File.mk cfg2 fp2 ft fn).key = fn
    ∧ (File.mk cUpload "./x.dat" "upload" "x.dat").key = "upload/x.dat"
    ∧ (File.mk emptyConfig "./x.dat" "upload" "x.dat").key = "x.dat" := by
  refine ⟨?_, ?_, rfl, rfl⟩
  · show File.key ⟨cfg, fp, ft, fn⟩ = pfx ++ fn
    unfold File.key
    simp only [h1]
    by_cases hp : pfx = ""
    · subst hp
      simp [String.isEmpty_iff]
    · rw [if_neg]
      simp [String.isEmpty_iff, hp]
  · show File.key ⟨cfg2, fp2, ft, fn⟩ = fn
    unfold File.key
    simp only [h2]

/-- Witness for C3: category `upload` with configured prefix `upload/` and
filename `x.dat` yields `upload/x.dat`; with no configured key, `x.dat`. -/
theorem computedKey_witness :
    (File.mk cUpload "./x.dat" "upload" "x.dat").key = "upload/" ++ "x.dat"
    ∧ (File.mk emptyConfig "./y" "upload" "x.dat").key = "x.dat" := by
  have h := computedKey_prefix_concat cUpload emptyConfig "./x.dat" "./y" "upload"
    "x.dat" "upload/" rfl rfl
  exact ⟨h.1, h.2.1⟩

/-- C4: whenever nothing is registered under the configured
`files.provider` name (including a missing provider key, which looks up
`None` in the options dictionary), `build()` raises the
unsupported-backend error and its open-call trace is empty: no backend's
`open()` is invoked. -/
theorem build_unregistered_fails_without_open
    (c : PropertiesConfig) (reg : Registry)
    (h : ∀ p, c.get "files.provider" = some p → reg p = none) :
    StorageFactory.build c reg = (.error .unsupportedBackend, []) := by
  unfold StorageFactory.build
  cases hc : c.get "files.provider" with
  | none => rfl
  | some p => simp only [h p hc]

/-- Witness for C4: provider configured as `zzz` against an empty
registry. -/
theorem build_unregistered_witness :
    StorageFactory.build cUnknownProvider emptyRegistry
      = (.error .unsupportedBackend, []) :=
  build_unregistered_fails_without_open cUnknownProvider emptyRegistry
    (fun _ _ => rfl)

/-- C7: `register` maps `backend.identifier` to that instance and a later
registration under the same identifier overwrites the earlier one
(last-write-wins, pointwise on every lookup); `build()` returns exactly
the backend registered under the configured `files.provider` value with
its `open()` called (trace `[instanceId]`) before returning; and in the
spec's scenario — backends `a` and `b` registered, provider `b` — `build`
returns the `b` backend, opened once. -/
theorem register_lww_build_selects_configured
    (reg reg2 : Registry) (b b2 bb a bScn : Backend)
    (c cb : PropertiesConfig) (p : String)
    (hlww : b2.identifier = b.identifier)
    (hp : c.get "files.provider" = some p)
    (hreg : reg2 p = some bb)
    (hbScn : bScn.identifier = "b")
    (hcb : cb.get "files.provider" = some "b") :
    (StorageFactory.register reg b) b.identifier = some b
    ∧ (∀ q, (StorageFactory.register (StorageFactory.register reg b) b2) q
        = (StorageFactory.register reg b2) q)
    ∧ StorageFactory.build c reg2 = (.ok bb, [bb.instanceId])
    ∧ StorageFactory.build cb
        (StorageFactory.register (StorageFactory.register emptyRegistry a) bScn)
        = (.ok bScn, [bScn.instanceId]) := by
  refine ⟨?_, ?_, ?_, ?_⟩
  · show (if b.identifier = b.identifier then some b else reg b.identifier) = some b
    rw [if_pos rfl]
  · intro q
    show (if q = b2.identifier then some b2
          else if q = b.identifier then some b else reg q)
        = (if q = b2.identifier then some b2 else reg q)
    by_cases hq : q = b2.identifier
    · rw [if_pos hq, if_pos hq]
    · rw [if_neg hq, if_neg hq, if_neg]
      rw [← hlww]
      exact hq
  · unfold StorageFactory.build
    rw [hp]
    simp only [hreg]
  · unfold StorageFactory.build
    simp only [hcb]
    show (match (if "b" = bScn.identifier then some bScn
                 else if "b" = a.identifier then some a else emptyRegistry "b") with
          | some b => ((.ok b : Except PyError Backend), [b.instanceId])
          | none => (.error .unsupportedBackend, [])) = (.ok bScn, [bScn.instanceId])
    rw [hbScn, if_pos rfl]

/-- Witness for C7: registry with `a` and `b` registered, provider `b`;
also exercises last-write-wins at a concrete lookup point. -/
theorem register_build_witness :
    (StorageFactory.register emptyRegistry bB) bB.identifier = some bB
    ∧ (StorageFactory.register (StorageFactory.register emptyRegistry bB) ⟨"b", 9⟩) "b"
        = (StorageFactory.register emptyRegistry ⟨"b", 9⟩) "b"
    ∧ StorageFactory.build cTwoThreads regB = (.ok bB, [bB.instanceId])
    ∧ StorageFactory.build cTwoThreads
        (StorageFactory.register (StorageFactory.register emptyRegistry aA) bB)
        = (.ok bB, [bB.instanceId]) := by
  have h := register_lww_build_selects_configured emptyRegistry regB bB ⟨"b", 9⟩ bB
    aA bB cTwoThreads cTwoThreads "b" rfl rfl rfl rfl rfl
  exact ⟨h.1, h.2.1 "b", h.2.2.1, h.2.2.2⟩

/-- Helper for C1: when `build()` succeeds deterministically and the poll
interval parses, the `prepare` loop yields `n` identical workers and `n`
open events on the one shared backend instance. -/
theorem prepareN_eq_replicate
    (c : PropertiesConfig) (q t : Nat) (reg : Registry) (b : Backend) (tm : ℚ)
    (n : Nat)
    (hbuild : StorageFactory.build c reg = (.ok b, [b.instanceId]))
    (htm : workerTimeout c = some tm) :
    prepareN c q t reg n
      = .ok (List.replicate n ⟨q, t, b, tm⟩, List.replicate n b.instanceId) := by
  have hinit : Worker.init c q t reg = .ok (⟨q, t, b, tm⟩, [b.instanceId]) := by
    unfold Worker.init
    rw [hbuild]
    simp only [htm]
  induction n with
  | zero => rfl
  | succ m ih =>
    unfold prepareN
    rw [hinit, ih]
    simp [List.replicate_succ]

/-- C1 (amended): `prepare()` constructs exactly `numThreads` Worker
instances that all share the same queue reference, the same cancellation
signal, and the same single Backend instance (the one registered under the
configured provider, returned by every `build()` call) — but each
`Worker.__init__` calls the registry's `build()` itself, so `open()` is
invoked once per worker, `numThreads` times in total, not exactly once. -/
theorem prepare_shares_refs_backend_opened_per_worker
    (c : PropertiesConfig) (q t : Nat) (reg : Registry) (p : String) (b : Backend)
    (n : Int) (ws : List WorkerRec) (evs : List Nat)
    (hp : c.get "files.provider" = some p)
    (hreg : reg p = some b)
    (hn : numberOfThreads c = some n)
    (hres : Manager.prepare c q t reg = .ok (ws, evs)) :
    ws.length = n.toNat
    ∧ (∀ w ∈ ws, w.queueRef = q ∧ w.tokenRef = t ∧ w.uploader = b)
    ∧ evs = List.replicate n.toNat b.instanceId := by
  have hbuild : StorageFactory.build c reg = (.ok b, [b.instanceId]) := by
    unfold StorageFactory.build
    rw [hp]
    simp only [hreg]
  unfold Manager.prepare at hres
  cases hj : joinTimeoutConf c with
  | none => rw [hn, hj] at hres; cases hres
  | some jt =>
    simp only [hn, hj] at hres
    cases htm : workerTimeout c with
    | some tm =>
      rw [prepareN_eq_replicate c q t reg b tm n.toNat hbuild htm] at hres
      cases hres
      refine ⟨List.length_replicate _ _, ?_, rfl⟩
      intro w hw
      rw [List.eq_of_mem_replicate hw]
      exact ⟨rfl, rfl, rfl⟩
    | none =>
      cases hnn : n.toNat with
      | zero =>
        rw [hnn] at hres
        cases hres
        refine ⟨rfl, ?_, rfl⟩
        intro w hw
        cases hw
      | succ m =>
        rw [hnn] at hres
        have hinit : Worker.init c q t reg = .error .valueError := by
          unfold Worker.init
          rw [hbuild]
          simp only [htm]
        unfold prepareN at hres
        rw [hinit] at hres
        cases hres

/-- Witness for C1 (amended): provider `b`, two threads — both workers
share queue 0, token 1 and the backend `bB`, with two open events. -/
theorem prepare_shares_refs_witness :
    (List.replicate 2 wB).length = (2 : Int).toNat
    ∧ (wB.queueRef = 0 ∧ wB.tokenRef = 1 ∧ wB.uploader = bB)
    ∧ ([7, 7] : List Nat) = List.replicate (2 : Int).toNat bB.instanceId := by
  have h := prepare_shares_refs_backend_opened_per_worker cTwoThreads 0 1 regB "b"
    bB 2 (List.replicate 2 wB) [7, 7] rfl rfl rfl rfl
  exact ⟨h.1, h.2.1 wB (by simp), h.2.2⟩

/-- Counterexample to C1 as stated: with `worker.threads = 2` and one
backend registered under the configured provider, preparation records two
`open()` invocations on the shared backend (trace `[7, 7]`), not exactly
one — each `Worker.__init__` performs its own `factory.build()`. -/
theorem prepare_two_threads_two_opens :
    Manager.prepare cTwoThreads 0 1 regB = .ok (List.replicate 2 wB, [7, 7])
    ∧ ([7, 7] : List Nat).length ≠ 1 :=
  ⟨rfl, by decide⟩

/-- C5: a worker whose cancellation token is already set at its first
loop-head check exits at once: no `get` call on the queue, no
`upload_file` call, no poll-interval sleep (so it terminates within one
poll-interval bound), whatever the rest of the environment would have
offered. -/
theorem cancelled_worker_does_nothing
    (up : Nat → Bool) (e : WorkerEnv) (es : List WorkerEnv)
    (h : e.tokenSet = true) :
    Worker.run up (e :: es) = ⟨.stopped, 0, 0, []⟩ := by
  unfold Worker.run
  rw [h]
  rfl

/-- Witness for C5: token set before the first iteration of a trace that
would have offered an item. -/
theorem cancelled_worker_witness :
    Worker.run (fun _ => true) [⟨true, some 4⟩, ⟨false, some 5⟩]
      = ⟨.stopped, 0, 0, []⟩ :=
  cancelled_worker_does_nothing (fun _ => true) ⟨true, some 4⟩ [⟨false, some 5⟩] rfl

/-- C6: the run loop never reaches its normal `stopped` exit while the
cancellation signal reads false at every iteration — an empty queue alone
never terminates it — and an iteration that pops nothing (token unset)
dispatches no item, sleeps the poll interval once, and continues with the
rest of the trace unchanged. -/
theorem run_exits_only_on_cancellation
    (up : Nat → Bool) (es es2 : List WorkerEnv)
    (h : ∀ e ∈ es, e.tokenSet = false) :
    (Worker.run up es).outcome ≠ .stopped
    ∧ Worker.run up (⟨false, none⟩ :: es2)
        = ⟨(Worker.run up es2).outcome, (Worker.run up es2).popAttempts + 1,
           (Worker.run up es2).sleeps + 1, (Worker.run up es2).transfers⟩ := by
  refine ⟨?_, rfl⟩
  induction es with
  | nil =>
    intro hc
    cases hc
  | cons e es ih =>
    have he := h e (List.mem_cons_self e es)
    have hes : ∀ x ∈ es, x.tokenSet = false :=
      fun x hx => h x (List.mem_cons_of_mem e hx)
    unfold Worker.run
    rw [he]
    cases e.popResult with
    | none =>
      simp only
      exact ih hes
    | some t =>
      cases hup : up t with
      | true =>
        simp only [hup]
        exact ih hes
      | false =>
        simp only [hup]
        intro hc
        cases hc

/-- Witness for C6 on a concrete two-iteration cancel-free trace: the loop
does not stop, and the empty-pop first iteration just sleeps and
continues. -/
theorem run_exits_witness :
    (Worker.run (fun _ => true) [⟨false, none⟩, ⟨false, some 3⟩]).outcome ≠ .stopped
    ∧ Worker.run (fun _ => true) (⟨false, none⟩ :: [⟨false, some 3⟩])
        = ⟨(Worker.run (fun _ => true) [⟨false, some 3⟩]).outcome,
           (Worker.run (fun _ => true) [⟨false, some 3⟩]).popAttempts + 1,
           (Worker.run (fun _ => true) [⟨false, some 3⟩]).sleeps + 1,
           (Worker.run (fun _ => true) [⟨false, some 3⟩]).transfers⟩ :=
  run_exits_only_on_cancellation (fun _ => true)
    [⟨false, none⟩, ⟨false, some 3⟩] [⟨false, some 3⟩] (by decide)

/-- C2 (amended): a failing `upload_file` call is dispatched exactly once
(no retry: the item is passed to the uploader a single time) and the error
escapes `run`, ending that worker's loop immediately — no further pop, no
sleep — contrary to continuing the loop; the failure stays local to that
worker: every other worker's run is a function of its own trace only, so
the pool result at any other index is unchanged. -/
theorem transfer_failure_local_but_ends_loop
    (up : Nat → Bool) (t : Nat) (es : List WorkerEnv)
    (ess : List (List WorkerEnv)) (i : Nat)
    (h : up t = false) :
    Worker.run up (⟨false, some t⟩ :: es) = ⟨.crashed t, 1, 0, [t]⟩
    ∧ (poolRun up ess).get? i = (ess.get? i).map (Worker.run up) := by
  constructor
  · unfold Worker.run
    simp only [h]
    rfl
  · simp [poolRun]

/-- Witness for C2 (amended): a one-item trace with an always-failing
uploader, and a two-worker pool in which the second worker's result is
read off its own trace. -/
theorem transfer_failure_witness :
    Worker.run (fun _ => false) (⟨false, some 1⟩ :: [⟨false, some 2⟩])
      = ⟨.crashed 1, 1, 0, [1]⟩
    ∧ (poolRun (fun _ => false) [[⟨false, some 1⟩], []]).get? 1
        = (([[⟨false, some 1⟩], []] : List (List WorkerEnv)).get? 1).map
            (Worker.run (fun _ => false)) :=
  transfer_failure_local_but_ends_loop (fun _ => false) 1 [⟨false, some 2⟩]
    [[⟨false, some 1⟩], []] 1 rfl

/-- Counterexample to C2 as stated: with an uploader that fails exactly on
item 1 and a trace offering item 1 then item 2, the run ends at the
failure — one pop attempt, outcome `crashed`, item 2 never dispatched —
so the worker does not continue its loop after the failed transfer. -/
theorem transfer_failure_worker_does_not_continue :
    Worker.run upFailsOnOne envsTwoItems = ⟨.crashed 1, 1, 0, [1]⟩
    ∧ (Worker.run upFailsOnOne envsTwoItems).popAttempts ≠ 2 :=
  ⟨rfl, by decide⟩

/-- C8: `open()` on an already-open handle first tears down the existing
client and then establishes a fresh one from configuration (events:
close of the old client, then the new open); `close()` on an
already-closed handle is a no-op leaving the state unchanged with no
events; and `open()` is idempotent in effect — the state after a second
`open()` equals the state after the first. -/
theorem storage_open_close_lifecycle
    (c : PropertiesConfig) (s sOpen sClosed : SimpleStorage) (cl : S3Client)
    (hOpen : sOpen.client = some cl) (hClosed : sClosed.client = none) :
    SimpleStorage.openConn c sOpen
      = (⟨some (mkClient c)⟩, [.closedClient cl, .openedClient (mkClient c)])
    ∧ SimpleStorage.close sClosed = (sClosed, [])
    ∧ (SimpleStorage.openConn c (SimpleStorage.openConn c s).1).1
        = (SimpleStorage.openConn c s).1 := by
  refine ⟨?_, ?_, rfl⟩
  · unfold SimpleStorage.openConn SimpleStorage.close
    rw [hOpen]
    rfl
  · unfold SimpleStorage.close
    rw [hClosed]

/-- Witness for C8: an open handle holding a concrete client, a closed
handle, and a double-open from the closed handle. -/
theorem storage_lifecycle_witness :
    SimpleStorage.openConn emptyConfig ⟨some ⟨none, none, none⟩⟩
      = (⟨some (mkClient emptyConfig)⟩,
         [.closedClient ⟨none, none, none⟩, .openedClient (mkClient emptyConfig)])
    ∧ SimpleStorage.close ⟨none⟩ = (⟨none⟩, [])
    ∧ (SimpleStorage.openConn emptyConfig
        (SimpleStorage.openConn emptyConfig ⟨none⟩).1).1
        = (SimpleStorage.openConn emptyConfig ⟨none⟩).1 :=
  storage_open_close_lifecycle emptyConfig ⟨none⟩ ⟨some ⟨none, none, none⟩⟩ ⟨none⟩
    ⟨none, none, none⟩ rfl rfl

/-- Helper for C9: with every thread refusing to finish within bound 0,
the join results are all `false` yet every thread is still visited. -/
theorem stop_all_stuck_replicate
    (token : Bool) (ws : List ThreadSt)
    (h0 : ∀ w ∈ ws, w.doneWithin 0 = false) :
    (Manager.stop token ws 0).2 = List.replicate ws.length false := by
  unfold Manager.stop joinThread
  induction ws with
  | nil => rfl
  | cons w ws ih =>
    simp only [List.map_cons, List.length_cons, List.replicate_succ]
    rw [h0 w (List.mem_cons_self w ws)]
    exact congrArg (List.cons false)
      (ih (fun x hx => h0 x (List.mem_cons_of_mem w hx)))

/-- C9: `stop()` never touches the cancellation signal (it comes back
exactly as it went in); it joins every worker in order, each join bounded
by the configured timeout, producing one result per worker — it proceeds
past workers that did not terminate; and with `joinTimeout = 0` and every
worker still mid-iteration it still returns (a value, never an
exception), with all joins reporting not-terminated and the signal
unchanged. -/
theorem stop_token_untouched_joins_all
    (token : Bool) (ws : List ThreadSt) (tm : Int)
    (h0 : ∀ w ∈ ws, w.doneWithin 0 = false) :
    (Manager.stop token ws tm).1 = token
    ∧ (Manager.stop token ws tm).2 = ws.map (fun w => joinThread w tm)
    ∧ (Manager.stop token ws tm).2.length = ws.length
    ∧ (Manager.stop token ws 0).2 = List.replicate ws.length false
    ∧ (Manager.stop token ws 0).1 = token :=
  ⟨rfl, rfl, List.length_map ws _, stop_all_stuck_replicate token ws h0, rfl⟩

/-- Witness for C9: two stuck workers, the signal set, join timeout 0. -/
theorem stop_witness :
    (Manager.stop true [thStuck, thStuck] 0).1 = true
    ∧ (Manager.stop true [thStuck, thStuck] 0).2
        = [thStuck, thStuck].map (fun w => joinThread w 0)
    ∧ (Manager.stop true [thStuck, thStuck] 0).2.length
        = ([thStuck, thStuck] : List ThreadSt).length
    ∧ (Manager.stop true [thStuck, thStuck] 0).2
        = List.replicate ([thStuck, thStuck] : List ThreadSt).length false
    ∧ (Manager.stop true [thStuck, thStuck] 0).1 = true := by
  have h := stop_token_untouched_joins_all true [thStuck, thStuck] 0 ?_
  · exact h
  · intro w hw
    rcases List.mem_cons.mp hw with h1 | h2
    · rw [h1]
      rfl
    · rcases List.mem_cons.mp h2 with h1 | h3
      · rw [h1]
        rfl
      · cases h3
